import Mathlib

/-!
Verification development for the `focus` local DNS relay.

Shallow embedding conventions:
* Python strings are modelled as lists of Unicode codepoints (`List Nat`);
  `cps` converts a Lean string literal to that representation for concrete
  inputs.  All configured domains are ASCII, and `lower_cp` is Python's
  `str.lower` restricted to ASCII (the only case that can arise for DNS
  names).
* DNS messages (`dnslib.DNSRecord`) are modelled by the `DNSRecord`
  structure, keeping exactly the fields the relay inspects or sets:
  transaction id, question name and type, response code, answer records.
* The effectful boundary (socket I/O, wall clock, `scutil` subprocesses)
  is passed in as function arguments: `parse`/`pack` for dnslib
  serialization, `attempt` for one upstream UDP exchange, explicit hour
  arguments for the clock, and `Except Unit` results for OS calls that can
  raise.  Python exceptions are modelled by `Except Unit` / `Option`.
-/

set_option autoImplicit false

namespace Focus

/-- Codepoints of a string literal (concrete test inputs). -/
def cps (s : String) : List Nat :=
  s.data.map Char.toNat

/-! ### config.py -/

/-- `config.BLOCKED_DOMAINS` (config.py lines 4-77), verbatim. -/
def BLOCKED_DOMAINS : List (List Nat) :=
  [cps "youtube.com", cps "youtu.be", cps "googlevideo.com", cps "ytimg.com",
   cps "twitter.com", cps "x.com", cps "twimg.com",
   cps "reddit.com", cps "redd.it", cps "redditmedia.com", cps "redditstatic.com",
   cps "facebook.com", cps "fb.com", cps "fbcdn.net", cps "facebook.net",
   cps "instagram.com", cps "cdninstagram.com",
   cps "tiktok.com", cps "tiktokcdn.com", cps "tiktokv.com",
   cps "snapchat.com", cps "snap.com",
   cps "pinterest.com", cps "pinimg.com",
   cps "linkedin.com", cps "licdn.com",
   cps "tumblr.com", cps "tumblr.co",
   cps "discord.com", cps "discordapp.com", cps "discord.gg",
   cps "twitch.tv", cps "ttvnw.net",
   cps "mastodon.social",
   cps "threads.net",
   cps "bsky.app", cps "bsky.social",
   cps "vimeo.com", cps "vimeocdn.com",
   cps "teams.microsoft.com", cps "teams.live.com",
   cps "news.ycombinator.com", cps "digg.com", cps "flipboard.com",
   cps "imgur.com", cps "9gag.com", cps "dailymotion.com",
   cps "open.spotify.com", cps "netflix.com",
   cps "tinder.com", cps "bumble.com", cps "hinge.co"]

/-- `config.ALLOWED_START_HOUR` (config.py line 81). -/
def ALLOWED_START_HOUR : Nat := 20

/-- `config.ALLOWED_END_HOUR` (config.py line 82). -/
def ALLOWED_END_HOUR : Nat := 22

/-- `config.UPSTREAM_DNS` (config.py line 85). -/
def UPSTREAM_DNS : String := "8.8.8.8"

/-- `config.BLOCK_IP` (config.py line 93). -/
def BLOCK_IP : List Nat := cps "0.0.0.0"

/-- `config.BLOCK_IPV6` (config.py line 97). -/
def BLOCK_IPV6 : List Nat := cps "::"

/-! ### Blocklist matcher (dns_server.py, `is_domain_blocked`) -/

/-- Codepoint of `'.'`. -/
def DOT : Nat := 46

/-- Python `str.lower` on one ASCII codepoint. -/
def lower_cp (c : Nat) : Nat :=
  if 65 ≤ c ∧ c ≤ 90 then c + 32 else c

/-- Python `domain.rstrip(".")`: remove every trailing `'.'`. -/
def rstrip_dots (s : List Nat) : List Nat :=
  (s.reverse.dropWhile (fun c => c == DOT)).reverse

/-- `domain.rstrip(".").lower()` (dns_server.py line 46). -/
def normalize_domain (s : List Nat) : List Nat :=
  (rstrip_dots s).map lower_cp

/-- `FocusBlockerDNS.is_domain_blocked` (dns_server.py lines 38-56):
normalize, then for each configured rule test exact equality or the
dotted-suffix match `domain.endswith("." + blocked)`. -/
def is_domain_blocked (domain : List Nat) : Bool :=
  let d := normalize_domain domain
  BLOCKED_DOMAINS.any fun blocked => d == blocked || (DOT :: blocked).isSuffixOf d

/-! ### Schedule evaluator (src/scheduler.py, `is_blocking_active`)

The wall clock (`datetime.now().hour`) and the two configured bounds are
explicit arguments; the deployed configuration instantiates the bounds
with `ALLOWED_START_HOUR` / `ALLOWED_END_HOUR`. -/

/-- `is_blocking_active` (scheduler.py lines 8-28). -/
def is_blocking_active (start_hour end_hour current_hour : Nat) : Bool :=
  let in_allowed_window :=
    if start_hour < end_hour then
      decide (start_hour ≤ current_hour ∧ current_hour < end_hour)
    else
      decide (current_hour ≥ start_hour ∨ current_hour < end_hour)
  !in_allowed_window

/-! ### DNS messages (the slice of `dnslib` the relay uses)

`dnslib.DNSRecord` is external library code; the model keeps exactly the
fields `dns_server.py` reads or writes: the transaction id, the single
question (name, numeric type), the response code and the answer section.
`request.reply()` copies id and question into a fresh response with rcode
0 and no answers; `add_answer` appends one resource record. -/

/-- One answer resource record (`dnslib.RR`): owner name, numeric type,
address rdata (as text), TTL. -/
structure RRecord where
  rname : List Nat
  rtype : Nat
  rdata : List Nat
  ttl : Nat
deriving DecidableEq

/-- The slice of `dnslib.DNSRecord` the relay inspects and produces. -/
structure DNSRecord where
  ident : Nat
  qname : List Nat
  qtype : Nat
  rcode : Nat
  answers : List RRecord
deriving DecidableEq

/-- dnslib numeric code for query type `A`. -/
def QTYPE_A : Nat := 1

/-- dnslib numeric code for query type `AAAA`. -/
def QTYPE_AAAA : Nat := 28

/-- dnslib numeric code for query type `ANY`. -/
def QTYPE_ANY : Nat := 255

/-- `request.reply()`: fresh response with the request's transaction id
and question, rcode 0 (NOERROR) and an empty answer section. -/
def DNSRecord.reply (request : DNSRecord) : DNSRecord :=
  { ident := request.ident
    qname := request.qname
    qtype := request.qtype
    rcode := 0
    answers := [] }

/-- `reply.add_answer(rr)`: append one resource record. -/
def DNSRecord.add_answer (r : DNSRecord) (rr : RRecord) : DNSRecord :=
  { r with answers := r.answers ++ [rr] }

/-! ### dns_server.py -/

/-- The forward map of dnslib's `QTYPE` Bimap (dnslib/dns.py; dnslib is
an external dependency, not part of this repository): numeric
resource-record type code to type name.  `QTYPE[code]` for a code
outside this registry raises `dnslib.DNSError`, modelled as `none`. -/
def QTYPE_NAMES : Nat → Option String
  | 1 => some "A"
  | 2 => some "NS"
  | 5 => some "CNAME"
  | 6 => some "SOA"
  | 10 => some "NULL"
  | 12 => some "PTR"
  | 13 => some "HINFO"
  | 15 => some "MX"
  | 16 => some "TXT"
  | 17 => some "RP"
  | 18 => some "AFSDB"
  | 24 => some "SIG"
  | 25 => some "KEY"
  | 28 => some "AAAA"
  | 29 => some "LOC"
  | 33 => some "SRV"
  | 35 => some "NAPTR"
  | 36 => some "KX"
  | 37 => some "CERT"
  | 38 => some "A6"
  | 39 => some "DNAME"
  | 41 => some "OPT"
  | 42 => some "APL"
  | 43 => some "DS"
  | 44 => some "SSHFP"
  | 45 => some "IPSECKEY"
  | 46 => some "RRSIG"
  | 47 => some "NSEC"
  | 48 => some "DNSKEY"
  | 49 => some "DHCID"
  | 50 => some "NSEC3"
  | 51 => some "NSEC3PARAM"
  | 52 => some "TLSA"
  | 53 => some "HIP"
  | 55 => some "HIP"
  | 59 => some "CDS"
  | 60 => some "CDNSKEY"
  | 61 => some "OPENPGPKEY"
  | 62 => some "CSYNC"
  | 63 => some "ZONEMD"
  | 64 => some "SVCB"
  | 65 => some "HTTPS"
  | 99 => some "SPF"
  | 108 => some "EUI48"
  | 109 => some "EUI64"
  | 249 => some "TKEY"
  | 250 => some "TSIG"
  | 251 => some "IXFR"
  | 252 => some "AXFR"
  | 255 => some "ANY"
  | 256 => some "URI"
  | 257 => some "CAA"
  | 32768 => some "TA"
  | 32769 => some "DLV"
  | _ => none

/-- `FocusBlockerDNS.create_blocked_response` (dns_server.py lines
90-113).  The source first evaluates `qtype = QTYPE[request.q.qtype]`
(line 101), dnslib's Bimap lookup, which raises `DNSError` for a type
code outside the registry — modelled as `Except.error ()`.  With a
registered name it dispatches on the *name*: A → one `0.0.0.0` answer,
AAAA → one `::` answer, ANY → both, any other name → NXDOMAIN (rcode 3)
with no answers.  All synthesized records carry TTL 60. -/
def create_blocked_response (request : DNSRecord) : Except Unit DNSRecord :=
  match QTYPE_NAMES request.qtype with
  | none => Except.error ()
  | some qtype =>
    let reply := request.reply
    let qname := request.qname
    Except.ok <|
      if qtype = "A" then
        reply.add_answer ⟨qname, QTYPE_A, BLOCK_IP, 60⟩
      else if qtype = "AAAA" then
        reply.add_answer ⟨qname, QTYPE_AAAA, BLOCK_IPV6, 60⟩
      else if qtype = "ANY" then
        (reply.add_answer ⟨qname, QTYPE_A, BLOCK_IP, 60⟩).add_answer
          ⟨qname, QTYPE_AAAA, BLOCK_IPV6, 60⟩
      else
        { reply with rcode := 3 }

/-- The SERVFAIL response synthesized at dns_server.py lines 130-131 and
139-140: `request.reply()` with rcode set to 2. -/
def servfail_reply (request : DNSRecord) : DNSRecord :=
  { request.reply with rcode := 2 }

/-- `FocusBlockerDNS._get_upstream_dns_servers` (dns_server.py lines
58-70).  `orig` is `NetworkMonitor.original_upstream_dns` (empty when not
on macOS or when nothing was captured; `servers.extend` of an empty list
is a no-op, so the `if NetworkMonitor.original_upstream_dns:` guard makes
no difference).  The fallback `UPSTREAM_DNS` is appended only when not
already present. -/
def get_upstream_dns_servers (orig : List String) : List String :=
  let servers := orig
  if UPSTREAM_DNS ∈ servers then servers else servers ++ [UPSTREAM_DNS]

/-- `FocusBlockerDNS.resolve_upstream` (dns_server.py lines 72-88):
try each upstream server in order; `attempt s` is one UDP exchange with
server `s` (`none` models a timeout or any socket error, which the source
catches and turns into `continue`); the first reply wins; `none` when
every candidate fails. -/
def resolve_upstream (attempt : String → Option DNSRecord) :
    List String → Option DNSRecord
  | [] => none
  | upstream :: rest =>
    match attempt upstream with
    | some response => some response
    | none => resolve_upstream attempt rest

/-- The routing decision inside the `try` block of
`FocusBlockerDNS.handle_request` (dns_server.py lines 122-131): when
blocking is active and the queried name is blocked, synthesize the block
response — a `DNSError` raised by the QTYPE lookup inside
`create_blocked_response` propagates out of this code (the `.error`
result); otherwise forward upstream, degrading to SERVFAIL when every
upstream candidate failed. -/
def route_query (blocking_active : Bool) (upstream : DNSRecord → Option DNSRecord)
    (request : DNSRecord) : Except Unit DNSRecord :=
  if blocking_active && is_domain_blocked request.qname then
    create_blocked_response request
  else
    match upstream request with
    | some response => Except.ok response
    | none => Except.ok (servfail_reply request)

/-- `FocusBlockerDNS.handle_request` (dns_server.py lines 115-143).
`parse` is `DNSRecord.parse` (`none` = dnslib parse exception), `pack` is
`DNSRecord.pack`, and `body` is everything between the successful parse
and `response.pack()` — in the implementation it may raise from library
internals, which the outer `except` turns into a SERVFAIL that re-parses
`data` (same result, `parse` being a function of the bytes); when even
that re-parse fails the handler returns the empty byte string. -/
def handle_request (parse : List Nat → Option DNSRecord)
    (pack : DNSRecord → List Nat) (body : DNSRecord → Except Unit DNSRecord)
    (data : List Nat) : List Nat :=
  match parse data with
  | some request =>
    match body request with
    | .ok response => pack response
    | .error _ => pack (servfail_reply request)
  | none => []

/-- `handle_request` as deployed: the body is the routing decision
`route_query` (whose only failure point is the QTYPE lookup in the
blocked branch). -/
def handle_request_impl (parse : List Nat → Option DNSRecord)
    (pack : DNSRecord → List Nat) (blocking_active : Bool)
    (upstream : DNSRecord → Option DNSRecord) (data : List Nat) : List Nat :=
  handle_request parse pack (route_query blocking_active upstream) data

/-- One iteration of the accept loop (dns_server.py lines 181-183): the
reply is transmitted only when `handle_request` returned non-empty bytes
(Python `if response:`); `none` means nothing is sent back. -/
def accept_step (handler : List Nat → List Nat) (data : List Nat) :
    Option (List Nat) :=
  let response := handler data
  if response = [] then none else some response

/-! ### network_monitor.py -/

/-- `NetworkMonitor._capture_original_dns` (network_monitor.py lines
182-198).  Arguments are the results of the OS queries: `dhcp_dns` from
`get_dhcp_dns_servers()`, `current_dns` from
`get_current_dns_from_scutil()`; `dns_server` is the relay's own address
and `prev` the previous value of the class variable
`original_upstream_dns` (kept when neither source yields anything).
DHCP-provided servers are the primary source; otherwise current resolvers
other than the relay itself and loopback addresses. -/
def capture_original_dns (dhcp_dns current_dns : List String)
    (dns_server : String) (prev : List String) : List String :=
  if dhcp_dns ≠ [] then dhcp_dns
  else
    let original := current_dns.filter fun d =>
      d ≠ dns_server ∧ ¬ d.startsWith "127."
    if original ≠ [] then original else prev

/-- `NetworkMonitor._configure_dns` (network_monitor.py lines 200-223).
Each OS interaction is an argument returning `Except Unit _`
(`.error` = a raised exception, e.g. `subprocess.run` failing): there is
no `try` in this method, so any raise propagates to the caller. -/
def configure_dns (set_global : Except Unit Bool)
    (get_service : Except Unit (Option String))
    (set_service : String → Except Unit Bool)
    (flush : Except Unit Unit) : Except Unit Bool := do
  let global_success ← set_global
  let service_id ← get_service
  let service_success ←
    match service_id with
    | some sid => set_service sid
    | none => pure false
  let success := global_success || service_success
  if success then flush
  return success

/-- The `while self._running` part of `NetworkMonitor._monitor_loop`
(network_monitor.py lines 255-262), driven by the list of outcomes of the
successive `_check_and_configure_dns()` calls while the running flag is
set.  The `try/except Exception: pass` swallows an error outcome, so the
loop advances to the next tick either way; the result counts the ticks
executed. -/
def run_ticks : List (Except Unit Unit) → Nat
  | [] => 0
  | tick :: rest =>
    match tick with
    | .ok _ => run_ticks rest + 1
    | .error _ => run_ticks rest + 1

/-- `NetworkMonitor._monitor_loop` (network_monitor.py lines 250-262):
the initial `self._configure_dns()` on line 253 runs *outside* any
`try`, so an exception there propagates and terminates the loop (the
thread dies) before the first tick; otherwise every scheduled tick runs. -/
def monitor_loop (initial : Except Unit Bool)
    (ticks : List (Except Unit Unit)) : Except Unit Nat :=
  match initial with
  | .error e => .error e
  | .ok _ => .ok (run_ticks ticks)

/-! ## Helper lemmas -/

/-- When every candidate attempt fails, `resolve_upstream` yields nothing. -/
theorem resolve_upstream_all_fail (attempt : String → Option DNSRecord)
    (servers : List String) (h : ∀ s ∈ servers, attempt s = none) :
    resolve_upstream attempt servers = none := by
  induction servers with
  | nil => rfl
  | cons s rest ih =>
    have hs : attempt s = none := h s (by simp)
    simp [resolve_upstream, hs]
    exact ih fun x hx => h x (by simp [hx])

/-- Each scheduled tick of the monitor loop executes, whether or not the
reconfiguration attempt in it raised. -/
theorem run_ticks_length (ticks : List (Except Unit Unit)) :
    run_ticks ticks = ticks.length := by
  induction ticks with
  | nil => rfl
  | cons t rest ih => cases t <;> simp [run_ticks, ih]

/-- Lowercasing a codepoint yields `'.'` only for `'.'` itself. -/
theorem lower_cp_eq_dot {c : Nat} : lower_cp c = DOT ↔ c = DOT := by
  unfold lower_cp DOT
  split <;> omega

/-- ASCII lowercasing commutes with dropping leading dots. -/
theorem map_lower_dropWhile_dot (l : List Nat) :
    (l.dropWhile fun c => c == DOT).map lower_cp
      = (l.map lower_cp).dropWhile fun c => c == DOT := by
  induction l with
  | nil => rfl
  | cons c t ih =>
    by_cases h : c = DOT
    · subst h
      simpa [List.dropWhile_cons, show lower_cp DOT = DOT from rfl] using ih
    · have h2 : lower_cp c ≠ DOT := fun hc => h (lower_cp_eq_dot.mp hc)
      simp [List.dropWhile_cons, h, h2]

/-- Normalization is lowercasing followed by dot-stripping: the two
passes of `domain.rstrip(".").lower()` commute, so only the lowercased
codepoints of the input matter. -/
theorem normalize_domain_map_lower (d : List Nat) :
    normalize_domain d = rstrip_dots (d.map lower_cp) := by
  unfold normalize_domain rstrip_dots
  rw [List.map_reverse, map_lower_dropWhile_dot, List.map_reverse]

/-- Appending one trailing dot does not change normalization. -/
theorem normalize_domain_append_dot (d : List Nat) :
    normalize_domain (d ++ [DOT]) = normalize_domain d := by
  unfold normalize_domain rstrip_dots
  simp [List.dropWhile_cons]

/-! ## Claims -/

/-- C3: for every configured pair `(start_hour, end_hour)` in `[0,24)` and
every current hour `h` in `[0,24)`: if `start < end` then blocking is
inactive exactly when `start ≤ h < end`; if `start ≥ end` then blocking is
inactive exactly when `h ≥ start ∨ h < end`; blocking-active is the
negation of being in the allowed window.  With window `(20,22)` hour 21 is
inactive and hour 23 active; with wrap window `(23,1)` hour 0 is inactive
and hour 12 active. -/
theorem C3_schedule_window (s e h : Nat) (hs : s < 24) (he : e < 24)
    (hh : h < 24) :
    (s < e → (is_blocking_active s e h = false ↔ (s ≤ h ∧ h < e)))
    ∧ (s ≥ e → (is_blocking_active s e h = false ↔ (h ≥ s ∨ h < e)))
    ∧ is_blocking_active 20 22 21 = false
    ∧ is_blocking_active 20 22 23 = true
    ∧ is_blocking_active 23 1 0 = false
    ∧ is_blocking_active 23 1 12 = true := by
  refine ⟨fun hlt => ?_, fun hge => ?_, by decide, by decide, by decide, by decide⟩
  · rw [show is_blocking_active s e h = !decide (s ≤ h ∧ h < e) from by
      simp [is_blocking_active, if_pos hlt]]
    rcases Decidable.em (s ≤ h ∧ h < e) with hw | hw <;> simp [hw]
  · rw [show is_blocking_active s e h = !decide (h ≥ s ∨ h < e) from by
      simp [is_blocking_active, if_neg (Nat.not_lt.mpr hge)]]
    rcases Decidable.em (h ≥ s ∨ h < e) with hw | hw <;> simp [hw]

/-- Witness for C3 at the configured window `(20,22)` and hour 21. -/
theorem C3_schedule_window_witness :
    is_blocking_active 20 22 21 = false ↔ (20 ≤ 21 ∧ 21 < 22) :=
  (C3_schedule_window 20 22 21 (by decide) (by decide) (by decide)).1 (by decide)

/-- C4 counterexample: the claim says a zero-width window
(`start = end`) blocks every hour; in the code the wrap branch then tests
`h ≥ s ∨ h < s`, a tautology, so blocking is never active.  At
`start = end = 12`, hour 0, the code returns `false`, not `true`. -/
theorem C4_zero_width_counterexample :
    ¬ (∀ s e h : Nat, s = e → h < 24 → is_blocking_active s e h = true) := by
  intro hclaim
  exact absurd (hclaim 12 12 0 rfl (by decide)) (by decide)

/-- C4 amended: when `start_hour = end_hour` the wrap branch's condition
`h ≥ start ∨ h < end` holds for every hour, so the whole day is treated
as allowed and `is_blocking_active` returns `false` for every hour —
blocking is never active, the opposite of the claimed always-active. -/
theorem C4_zero_width_always_allowed (s e h : Nat) (hse : s = e) :
    is_blocking_active s e h = false := by
  subst hse
  have hall : h ≥ s ∨ h < s := le_or_lt s h
  simp [is_blocking_active, Nat.lt_irrefl, hall]

/-- Witness for the amended C4 at `start = end = 12`, hour 7. -/
theorem C4_zero_width_witness : is_blocking_active 12 12 7 = false :=
  C4_zero_width_always_allowed 12 12 7 rfl

/-- C2 counterexample: query type 3 (the obsolete MD type) is neither A,
AAAA nor ANY, so the claim demands an NXDOMAIN (rcode 3) response with
zero answers; but 3 is outside dnslib's QTYPE registry, the Bimap lookup
raises `DNSError` before the dispatch, `create_blocked_response`
produces no response at all, and the program's observable reply — via
`handle_request`'s outer `except` — is SERVFAIL, rcode 2, not 3. -/
theorem C2_unmapped_qtype_counterexample :
    (3 : Nat) ≠ QTYPE_A ∧ (3 : Nat) ≠ QTYPE_AAAA ∧ (3 : Nat) ≠ QTYPE_ANY
    ∧ QTYPE_NAMES 3 = none
    ∧ create_blocked_response ⟨9, cps "youtube.com.", 3, 0, []⟩ = Except.error ()
    ∧ handle_request (fun _ => some ⟨9, cps "youtube.com.", 3, 0, []⟩)
        (fun r => [r.rcode]) (route_query true fun _ => none) [7]
      = [2]
    ∧ (2 : Nat) ≠ 3 :=
  ⟨by decide, by decide, by decide, rfl, rfl, rfl, by decide⟩

/-- C2 amended: with blocking active and the domain blocked,
`create_blocked_response` yields, for an A query, exactly one answer
record mapping the queried name to `0.0.0.0` with TTL 60 and rcode 0;
for AAAA, exactly one `::` answer; for ANY, exactly one A and one AAAA
answer; for every other query type *registered in dnslib's QTYPE map*
(e.g. HTTPS, SVCB, CNAME), rcode 3 (NXDOMAIN) and zero answers; for a
type code outside that registry the QTYPE lookup raises `DNSError`, so
no blocked response is built and `handle_request` answers SERVFAIL
(rcode 2) instead. -/
theorem C2_blocked_response_shape (request : DNSRecord) :
    (request.qtype = QTYPE_A →
      create_blocked_response request
        = Except.ok ⟨request.ident, request.qname, request.qtype, 0,
            [⟨request.qname, QTYPE_A, BLOCK_IP, 60⟩]⟩)
    ∧ (request.qtype = QTYPE_AAAA →
      create_blocked_response request
        = Except.ok ⟨request.ident, request.qname, request.qtype, 0,
            [⟨request.qname, QTYPE_AAAA, BLOCK_IPV6, 60⟩]⟩)
    ∧ (request.qtype = QTYPE_ANY →
      create_blocked_response request
        = Except.ok ⟨request.ident, request.qname, request.qtype, 0,
            [⟨request.qname, QTYPE_A, BLOCK_IP, 60⟩,
             ⟨request.qname, QTYPE_AAAA, BLOCK_IPV6, 60⟩]⟩)
    ∧ (∀ name, QTYPE_NAMES request.qtype = some name →
        name ≠ "A" → name ≠ "AAAA" → name ≠ "ANY" →
        create_blocked_response request
          = Except.ok ⟨request.ident, request.qname, request.qtype, 3, []⟩)
    ∧ (QTYPE_NAMES request.qtype = none →
        create_blocked_response request = Except.error ()
        ∧ ∀ (parse : List Nat → Option DNSRecord) (pack : DNSRecord → List Nat)
            (upstream : DNSRecord → Option DNSRecord) (data : List Nat),
            parse data = some request → is_domain_blocked request.qname = true →
            handle_request parse pack (route_query true upstream) data
              = pack (servfail_reply request)) := by
  refine ⟨fun hA => ?_, fun hAAAA => ?_, fun hANY => ?_,
    fun name hname h1 h2 h3 => ?_, fun hnone => ?_⟩
  · simp [create_blocked_response, hA, QTYPE_A,
      show QTYPE_NAMES 1 = some "A" from rfl, DNSRecord.reply, DNSRecord.add_answer]
  · simp [create_blocked_response, hAAAA, QTYPE_AAAA,
      show QTYPE_NAMES 28 = some "AAAA" from rfl, DNSRecord.reply, DNSRecord.add_answer]
  · simp [create_blocked_response, hANY, QTYPE_ANY,
      show QTYPE_NAMES 255 = some "ANY" from rfl, DNSRecord.reply, DNSRecord.add_answer]
  · simp [create_blocked_response, hname, h1, h2, h3, DNSRecord.reply]
  · refine ⟨by simp [create_blocked_response, hnone], fun parse pack upstream data hp hblk => ?_⟩
    simp [handle_request, hp, route_query, hblk, create_blocked_response, hnone]

/-- Witness for the amended C2: an A query for `youtube.com.` gets the
single `0.0.0.0` TTL-60 answer, and an HTTPS query (type 65, registered
in dnslib's map) gets NXDOMAIN with zero answers. -/
theorem C2_blocked_response_witness :
    create_blocked_response ⟨1234, cps "youtube.com.", 1, 0, []⟩
      = Except.ok ⟨1234, cps "youtube.com.", 1, 0,
          [⟨cps "youtube.com.", QTYPE_A, BLOCK_IP, 60⟩]⟩
    ∧ create_blocked_response ⟨1234, cps "youtube.com.", 65, 0, []⟩
      = Except.ok ⟨1234, cps "youtube.com.", 65, 3, []⟩ :=
  ⟨(C2_blocked_response_shape ⟨1234, cps "youtube.com.", 1, 0, []⟩).1 rfl,
   (C2_blocked_response_shape ⟨1234, cps "youtube.com.", 65, 0, []⟩).2.2.2.1 "HTTPS"
     rfl (by decide) (by decide) (by decide)⟩

/-- C5: for a well-formed query routed upstream (blocking inactive or
domain not blocked), when every upstream candidate fails the handler
returns the packed SERVFAIL (rcode 2) reply; `handle_request_impl` is a
total function, so nothing is raised to the accept loop. -/
theorem C5_upstream_failure_servfail (parse : List Nat → Option DNSRecord)
    (pack : DNSRecord → List Nat) (active : Bool)
    (attempt : String → Option DNSRecord) (servers : List String)
    (data : List Nat) (request : DNSRecord)
    (hparse : parse data = some request)
    (hroute : active = false ∨ is_domain_blocked request.qname = false)
    (hfail : ∀ s ∈ servers, attempt s = none) :
    resolve_upstream attempt servers = none
    ∧ handle_request_impl parse pack active
        (fun _ => resolve_upstream attempt servers) data
        = pack (servfail_reply request)
    ∧ (servfail_reply request).rcode = 2 := by
  have hnone := resolve_upstream_all_fail attempt servers hfail
  refine ⟨hnone, ?_, rfl⟩
  rcases hroute with hact | hblk
  · simp [handle_request_impl, handle_request, hparse, route_query, hact, hnone]
  · simp [handle_request_impl, handle_request, hparse, route_query, hblk, hnone]

/-- Witness for C5: blocking inactive, one unreachable upstream. -/
theorem C5_upstream_failure_witness :
    resolve_upstream (fun _ => none) ["8.8.8.8"] = none
    ∧ handle_request_impl (fun _ => some ⟨7, cps "example.com.", 1, 0, []⟩)
        (fun r => [r.rcode]) false
        (fun _ => resolve_upstream (fun _ => none) ["8.8.8.8"]) []
        = (fun (r : DNSRecord) => [r.rcode]) (servfail_reply ⟨7, cps "example.com.", 1, 0, []⟩)
    ∧ (servfail_reply ⟨7, cps "example.com.", 1, 0, []⟩).rcode = 2 :=
  C5_upstream_failure_servfail (fun _ => some ⟨7, cps "example.com.", 1, 0, []⟩)
    (fun r => [r.rcode]) false (fun _ => none) ["8.8.8.8"] []
    ⟨7, cps "example.com.", 1, 0, []⟩ rfl (Or.inl rfl) (fun _ _ => rfl)

/-- C6: a datagram whose bytes do not parse as a DNS message gets no
reply: `handle_request` returns the empty byte string and the accept loop
step transmits nothing. -/
theorem C6_unparseable_dropped (parse : List Nat → Option DNSRecord)
    (pack : DNSRecord → List Nat) (body : DNSRecord → Except Unit DNSRecord)
    (data : List Nat) (hparse : parse data = none) :
    handle_request parse pack body data = []
    ∧ accept_step (handle_request parse pack body) data = none := by
  constructor <;> simp [handle_request, accept_step, hparse]

/-- Witness for C6 with a parser that rejects everything. -/
theorem C6_unparseable_witness :
    handle_request (fun _ => none) (fun r => [r.rcode]) (fun r => .ok r) [0, 1, 2] = []
    ∧ accept_step (handle_request (fun _ => none) (fun r => [r.rcode]) (fun r => .ok r)) [0, 1, 2] = none :=
  C6_unparseable_dropped (fun _ => none) (fun r => [r.rcode]) (fun r => .ok r)
    [0, 1, 2] rfl

/-- C10: `handle_request` is total — it is a Lean function returning a
byte string on every input — and case-complete: a packed response when
the datagram parses and the body succeeds; a packed SERVFAIL that keeps
the original transaction id when an internal error occurs after a
successful parse; the empty byte string when parsing fails entirely. -/
theorem C10_handle_request_total (parse : List Nat → Option DNSRecord)
    (pack : DNSRecord → List Nat) (body : DNSRecord → Except Unit DNSRecord)
    (data : List Nat) :
    (∀ request response, parse data = some request → body request = .ok response →
        handle_request parse pack body data = pack response)
    ∧ (∀ request err, parse data = some request → body request = .error err →
        handle_request parse pack body data = pack (servfail_reply request)
        ∧ (servfail_reply request).ident = request.ident
        ∧ (servfail_reply request).rcode = 2)
    ∧ (parse data = none → handle_request parse pack body data = []) := by
  refine ⟨fun request response hp hb => ?_, fun request err hp hb => ?_, fun hp => ?_⟩
  · simp [handle_request, hp, hb]
  · simp [handle_request, hp, hb, servfail_reply, DNSRecord.reply]
  · simp [handle_request, hp]

/-- Witness for C10: internal failure after a successful parse yields the
packed SERVFAIL. -/
theorem C10_handle_request_witness :
    handle_request (fun _ => some ⟨42, cps "a.com.", 1, 0, []⟩)
        (fun r => [r.ident, r.rcode]) (fun _ => .error ()) []
      = (fun (r : DNSRecord) => [r.ident, r.rcode]) (servfail_reply ⟨42, cps "a.com.", 1, 0, []⟩)
    ∧ (servfail_reply ⟨42, cps "a.com.", 1, 0, []⟩).ident = 42
    ∧ (servfail_reply ⟨42, cps "a.com.", 1, 0, []⟩).rcode = 2 :=
  (C10_handle_request_total (fun _ => some ⟨42, cps "a.com.", 1, 0, []⟩)
    (fun r => [r.ident, r.rcode]) (fun _ => .error ()) []).2.1
    ⟨42, cps "a.com.", 1, 0, []⟩ () rfl rfl

/-- C9 counterexample: the immediate reconfiguration pass at loop start is
not protected by any `try`: when the first OS call of `_configure_dns`
raises, the monitor loop terminates with that exception and never reaches
the one scheduled tick — had the initial pass succeeded the same schedule
would have executed its tick. -/
theorem C9_initial_pass_counterexample :
    monitor_loop (configure_dns (Except.error ()) (Except.ok none)
        (fun _ => Except.ok false) (Except.ok ())) [Except.ok ()]
      = Except.error ()
    ∧ monitor_loop (Except.ok true) [Except.ok ()] = Except.ok 1
    ∧ (Except.error () : Except Unit Nat) ≠ Except.ok 1 :=
  ⟨rfl, rfl, fun h => nomatch h⟩

/-- C9 amended: once the unprotected initial `_configure_dns()` pass has
returned normally, every scheduled tick executes — an exception inside a
per-tick reconfiguration attempt is swallowed by the `try/except` and the
loop proceeds to the next tick; but an exception in the immediate initial
pass propagates and terminates the loop before the first tick. -/
theorem C9_tick_errors_contained (initial : Except Unit Bool)
    (ticks : List (Except Unit Unit)) (b : Bool)
    (hinit : initial = Except.ok b) :
    monitor_loop initial ticks = Except.ok ticks.length := by
  subst hinit
  simp [monitor_loop, run_ticks_length]

/-- Witness for the amended C9: a failing tick between two good ones is
swallowed and all three ticks run. -/
theorem C9_tick_errors_witness :
    monitor_loop (Except.ok true) [Except.ok (), Except.error (), Except.ok ()]
      = Except.ok 3 :=
  C9_tick_errors_contained (Except.ok true)
    [Except.ok (), Except.error (), Except.ok ()] true rfl

/-- C1: `is_domain_blocked d` holds exactly when some configured rule `r`
equals the normalized `d` or is a dotted suffix of it; for every
configured rule `r`, `www. + r` is blocked and `evil + r` is not, and the
superstring `notyoutube.com` sharing a suffix of rule `youtube.com`
without the dot boundary is not blocked. -/
theorem C1_blocklist_suffix_match :
    (∀ d : List Nat, is_domain_blocked d = true ↔
        ∃ r ∈ BLOCKED_DOMAINS,
          normalize_domain d = r ∨ (DOT :: r) <:+ normalize_domain d)
    ∧ (∀ r ∈ BLOCKED_DOMAINS, is_domain_blocked (cps "www." ++ r) = true)
    ∧ (∀ r ∈ BLOCKED_DOMAINS, is_domain_blocked (cps "evil" ++ r) = false)
    ∧ is_domain_blocked (cps "notyoutube.com") = false := by
  refine ⟨fun d => ?_, by decide, by decide, by decide⟩
  simp only [is_domain_blocked, List.any_eq_true, Bool.or_eq_true, beq_iff_eq,
    List.isSuffixOf_iff_suffix]

/-- Witness for C1 at rule `youtube.com`: its `www.` subdomain is blocked
while the `evil` superstring is not. -/
theorem C1_blocklist_witness :
    is_domain_blocked (cps "www." ++ cps "youtube.com") = true
    ∧ is_domain_blocked (cps "evil" ++ cps "youtube.com") = false :=
  ⟨C1_blocklist_suffix_match.2.1 (cps "youtube.com") (by decide),
   C1_blocklist_suffix_match.2.2.1 (cps "youtube.com") (by decide)⟩

/-- C7: `is_domain_blocked` is case-insensitive (any two inputs with the
same ASCII-lowercased codepoints agree) and trailing-dot-insensitive
(appending one `'.'` changes nothing); in particular `YouTube.com.` and
`youtube.com` agree. -/
theorem C7_normalization_insensitive :
    (∀ d d' : List Nat, d.map lower_cp = d'.map lower_cp →
        is_domain_blocked d = is_domain_blocked d')
    ∧ (∀ d : List Nat, is_domain_blocked (d ++ [DOT]) = is_domain_blocked d)
    ∧ is_domain_blocked (cps "YouTube.com.") = is_domain_blocked (cps "youtube.com") := by
  refine ⟨fun d d' h => ?_, fun d => ?_, by decide⟩
  · simp only [is_domain_blocked, normalize_domain_map_lower, h]
  · simp only [is_domain_blocked, normalize_domain_append_dot]

/-- Witness for C7: a mixed-case spelling of `www.youtube.com` and the
all-lowercase spelling get the same verdict. -/
theorem C7_normalization_witness :
    is_domain_blocked (cps "WWW.YouTube.COM") = is_domain_blocked (cps "www.youtube.com")
    ∧ is_domain_blocked (cps "www.youtube.com" ++ [DOT])
        = is_domain_blocked (cps "www.youtube.com") :=
  ⟨C7_normalization_insensitive.1 (cps "WWW.YouTube.COM") (cps "www.youtube.com") (by decide),
   C7_normalization_insensitive.2.1 (cps "www.youtube.com")⟩

/-- C8: the upstream list always contains the configured fallback
`8.8.8.8`; when the fallback was not among the captured original servers
it is appended after all of them, so every captured (e.g. DHCP-provided)
server sits strictly ahead of the fallback; when it is already present
nothing is appended; and `_capture_original_dns` prefers DHCP-provided
servers whenever there are any. -/
theorem C8_upstream_list_order (orig : List String) :
    UPSTREAM_DNS ∈ get_upstream_dns_servers orig
    ∧ (UPSTREAM_DNS ∈ orig → get_upstream_dns_servers orig = orig)
    ∧ (UPSTREAM_DNS ∉ orig →
        get_upstream_dns_servers orig = orig ++ [UPSTREAM_DNS]
        ∧ ∀ s ∈ orig,
            (get_upstream_dns_servers orig).indexOf s
              < (get_upstream_dns_servers orig).indexOf UPSTREAM_DNS)
    ∧ (∀ dhcp cur srv prev, dhcp ≠ [] →
        capture_original_dns dhcp cur srv prev = dhcp) := by
  refine ⟨?_, fun hmem => ?_, fun hnot => ?_, fun dhcp cur srv prev hne => ?_⟩
  · by_cases hmem : UPSTREAM_DNS ∈ orig
    · simp [get_upstream_dns_servers, hmem]
    · simp [get_upstream_dns_servers, hmem]
  · simp [get_upstream_dns_servers, hmem]
  · have heq : get_upstream_dns_servers orig = orig ++ [UPSTREAM_DNS] := by
      simp [get_upstream_dns_servers, hnot]
    refine ⟨heq, fun s hs => ?_⟩
    rw [heq, List.indexOf_append_of_mem hs, List.indexOf_append_of_not_mem hnot]
    exact Nat.lt_of_lt_of_le (List.indexOf_lt_length.mpr hs) (Nat.le_add_right _ _)
  · simp [capture_original_dns, hne]

/-- Witness for C8: one captured DHCP server `1.1.1.1`; the fallback is
appended behind it and the DHCP server indexes ahead of it. -/
theorem C8_upstream_list_witness :
    get_upstream_dns_servers ["1.1.1.1"] = ["1.1.1.1"] ++ [UPSTREAM_DNS]
    ∧ (get_upstream_dns_servers ["1.1.1.1"]).indexOf "1.1.1.1"
        < (get_upstream_dns_servers ["1.1.1.1"]).indexOf UPSTREAM_DNS
    ∧ capture_original_dns ["9.9.9.9"] [] "127.0.0.1" [] = ["9.9.9.9"] :=
  ⟨((C8_upstream_list_order ["1.1.1.1"]).2.2.1 (by decide)).1,
   ((C8_upstream_list_order ["1.1.1.1"]).2.2.1 (by decide)).2 "1.1.1.1" (by decide),
   (C8_upstream_list_order ["1.1.1.1"]).2.2.2 ["9.9.9.9"] [] "127.0.0.1" [] (by decide)⟩

end Focus
